import Mathlib

/-!
Verification of the dispatch engine of `app.py` (Streamlit bulk mailer).

The file shallowly embeds the pure control logic of the program:

* `backoff` / `backoffPre` embed the `backoff` helper (app.py lines 28-31);
  the random bit `uuid.uuid4().int % 2` is modelled by a `Bool`, and the
  floating point arithmetic by exact rationals (base `1.5`, cap `60.0` and
  factor `0.2` are all dyadic, so `ℚ` is a faithful model of the values the
  claims are about).
* `isTransient`, `sendLoop` embed the per-recipient retry loop
  (app.py lines 331-372); the SMTP server is replaced by an oracle
  `ℕ → AttemptResult` giving the result of each numbered attempt.  An
  exception belonging to the caught tuple is `AttemptResult.err`; any other
  exception (which escapes to the batch-level handler) is
  `AttemptResult.fatal`.
* `processRecipient`, `runRecips`, `processWindow`, `splitWindows` and
  `do_send` embed the body of `do_send` (app.py lines 244-384): the guard for
  a missing e-mail address, the template-rendering guard, the dry-run branch,
  the batching loop `for b in range(batches)` and the batch-level exception
  handler.  Session opening is modelled by an oracle `ℕ → Option String`
  (window index to the connection error raised by `SMTPSession.__enter__`,
  if any).
* `minInterval` / `rateWait` embed the rate limiter (app.py lines 255 and
  320-323) over an abstract rational clock.
* `setHeader`, `headers_static`, `perRowHeaders`, `sendHeaders` embed the
  header dictionary construction (app.py lines 258-263 and 335-339) and the
  non-empty-value filter of `SMTPSession.send` (lines 86-88); a Python dict
  is modelled by an insertion-ordered association list with in-place update.
-/

namespace BulkMailer

/-- Pre-jitter backoff wait, app.py line 29: `wait = min(cap, base ** (attempt - 1))`
with the default arguments `base = 1.5`, `cap = 60.0` used at the single call
site (line 372). -/
def backoffPre (attempt : ℕ) : ℚ :=
  min 60 ((3 / 2 : ℚ) ^ (attempt - 1))

/-- app.py lines 28-31.  `coin` models `uuid.uuid4().int % 2 = 1`;
`jitter = 0.2 * wait * (2 * coin - 1)` and the result is
`max(0.0, wait + jitter)`. -/
def backoff (attempt : ℕ) (coin : Bool) : ℚ :=
  let wait := backoffPre attempt
  let jitter := (1 / 5 : ℚ) * wait * (2 * (if coin then 1 else 0) - 1)
  max 0 (wait + jitter)

/-- Status code of a caught SMTP exception (`getattr(e, "smtp_code", None)`,
app.py line 363): `none` models an exception without a status code (timeout,
reset, disconnect), `some c` a protocol reply code. -/
structure SendError where
  code : Option ℕ
  msg : String
  deriving DecidableEq

/-- Result of one `mailer.send` call, as seen by the retry loop:
`ok` = the call returned; `err` = it raised one of the exceptions caught by
the per-recipient handler (app.py lines 352-362); `fatal` = it raised any
other exception, which escapes to the batch-level handler (line 377). -/
inductive AttemptResult where
  | ok : AttemptResult
  | err : SendError → AttemptResult
  | fatal : String → AttemptResult
  deriving DecidableEq

/-- Python `str.strip()` (used at app.py lines 302 and 338), as a
kernel-computable function on the character list of the string. -/
def pyStrip (s : String) : String :=
  String.mk
    (((s.data.dropWhile Char.isWhitespace).reverse.dropWhile Char.isWhitespace).reverse)

/-- app.py line 366: `transient = (code is None) or (400 <= int(code) < 500)`. -/
def isTransient : Option ℕ → Bool
  | none => true
  | some c => decide (400 ≤ c ∧ c < 500)

/-- Terminal state of the retry loop for one recipient, recording the number
of attempts made.  `failed` carries the transient/permanent classification of
the final error together with its code and decoded message (the fields of the
appended error row, app.py line 369). -/
inductive LoopResult where
  | sent : ℕ → LoopResult
  | failed : ℕ → Bool → Option ℕ → String → LoopResult
  | fatal : ℕ → String → LoopResult
  deriving DecidableEq

/-- The `while True` retry loop, app.py lines 331-372.  `attempts` is the
counter before the `attempts += 1` increment; `env a` is the outcome of the
a-th send call.  The loop exits with `failed` exactly when
`not transient or attempts >= int(max_retries)` (line 367); otherwise it
sleeps `backoff(attempts)` and iterates.  The fuel argument only forces
structural termination: from `sendLoop` the loop exits by attempt
`max 1 max_retries` at the latest, so the fuel (initially `max_retries + 1`)
is never exhausted. -/
def sendLoopAux (env : ℕ → AttemptResult) (max_retries : ℕ) :
    ℕ → ℕ → LoopResult
  | _, 0 => LoopResult.fatal 0 "fuel exhausted"
  | attempts, fuel + 1 =>
    let a := attempts + 1
    match env a with
    | AttemptResult.ok => LoopResult.sent a
    | AttemptResult.fatal m => LoopResult.fatal a m
    | AttemptResult.err e =>
      if isTransient e.code = false ∨ max_retries ≤ a then
        LoopResult.failed a (isTransient e.code) e.code e.msg
      else
        sendLoopAux env max_retries a fuel

/-- Entry point of the retry loop: `attempts = 0` (app.py line 331). -/
def sendLoop (env : ℕ → AttemptResult) (max_retries : ℕ) : LoopResult :=
  sendLoopAux env max_retries 0 (max_retries + 1)

/-- Number of send attempts a `LoopResult` records. -/
def attemptsOf : LoopResult → ℕ
  | LoopResult.sent n => n
  | LoopResult.failed n _ _ _ => n
  | LoopResult.fatal n _ => n

/-- One input row: the `email` cell and the optional `unsubscribe_url` cell
(`none` models a missing column or a NaN cell, i.e. the failure of
`"unsubscribe_url" in row and pd.notna(row["unsubscribe_url"])`,
app.py line 337). -/
structure Recipient where
  email : String
  unsubscribe_url : Option String
  deriving DecidableEq

/-- Environment of one recipient: whether `render_template` succeeds for it
(and the error text if not), and the oracle for its send attempts. -/
structure RecipientEnv where
  renderOk : Bool
  renderErrMsg : String
  attempts : ℕ → AttemptResult

/-- The configuration fields of `do_send` that determine outcomes
(`rate_per_min` only shapes timing, modelled separately by
`minInterval`/`rateWait`). -/
structure Config where
  max_retries : ℕ
  dry_run : Bool
  batch_size : ℕ

/-- Per-recipient terminal outcome (the spec's SendOutcome tags reachable in
`do_send`).  `sendFailure true _ _` is the spec's TransientFailure,
`sendFailure false _ _` its PermanentFailure. -/
inductive Outcome where
  | sent : Outcome
  | missingEmail : Outcome
  | templateFailure : String → Outcome
  | sendFailure : Bool → Option ℕ → String → Outcome
  | batchFailure : String → Outcome
  deriving DecidableEq

/-- Step result of processing one recipient inside the `with` block:
`done` resolves the recipient and continues the window; `fatal` is an
exception escaping to the batch-level handler. -/
inductive StepResult where
  | done : Outcome → StepResult
  | fatal : String → StepResult
  deriving DecidableEq

/-- Body of the per-recipient loop, app.py lines 299-372:
the missing-address guard (`to_addr = str(row[email_col]).strip()`, lines
302-307), the template-rendering guard (lines 309-318), the dry-run branch
(lines 325-329) and the retry loop. -/
def processRecipient (cfg : Config) (r : Recipient) (env : RecipientEnv) :
    StepResult :=
  let to_addr := pyStrip r.email
  if to_addr = "" then StepResult.done Outcome.missingEmail
  else if env.renderOk = false then
    StepResult.done (Outcome.templateFailure env.renderErrMsg)
  else if cfg.dry_run = true then StepResult.done Outcome.sent
  else
    match sendLoop env.attempts cfg.max_retries with
    | LoopResult.sent _ => StepResult.done Outcome.sent
    | LoopResult.failed _ t c m => StepResult.done (Outcome.sendFailure t c m)
    | LoopResult.fatal _ m => StepResult.fatal m

/-- Number of `mailer.send` invocations made for one recipient: 0 on the
missing-address, template-failure and dry-run paths (the guards are those of
`processRecipient`), otherwise the attempts consumed by the retry loop. -/
def recipAttempts (cfg : Config) (r : Recipient) (env : RecipientEnv) : ℕ :=
  if pyStrip r.email = "" then 0
  else if env.renderOk = false then 0
  else if cfg.dry_run = true then 0
  else attemptsOf (sendLoop env.attempts cfg.max_retries)

/-- The ledger entry an outcome contributes: first component is the e-mail
string the code records with it (`to_addr` on the per-recipient paths). -/
def runRecips (cfg : Config) :
    List (Recipient × RecipientEnv) → List (String × Outcome) × Option String
  | [] => ([], none)
  | (r, env) :: rest =>
    match processRecipient cfg r env with
    | StepResult.done o =>
      let res := runRecips cfg rest
      ((pyStrip r.email, o) :: res.1, res.2)
    | StepResult.fatal m => ([], some m)

/-- One window of the batch loop, app.py lines 285-384.  `openRes` is the
result of `SMTPSession.__enter__` (`some e` = it raised `e`).  On a batch
level exception — at open, or escaping mid-window — the handler at lines
379-383 appends a `batch_error` row for EVERY recipient of the window
`range(start_i, end_i)`, using the unstripped `str(row[email_col])`. -/
def processWindow (cfg : Config) (openRes : Option String)
    (w : List (Recipient × RecipientEnv)) : List (String × Outcome) :=
  match openRes with
  | some e => w.map fun re => (re.1.email, Outcome.batchFailure e)
  | none =>
    let res := runRecips cfg w
    match res.2 with
    | none => res.1
    | some m => res.1 ++ w.map fun re => (re.1.email, Outcome.batchFailure m)

/-- Windows of the batch loop, app.py lines 279-283: consecutive chunks of
`batch_size` recipients (the last chunk may be shorter).  Defined for
`batch_size ≥ 1`, which the UI enforces (`min_value=1`, line 132); the fuel
(initially the list length) only forces structural termination and is never
exhausted, since every step consumes at least one element. -/
def splitWindowsAux (bs : ℕ) : ℕ → List α → List (List α)
  | 0, _ => []
  | _, [] => []
  | fuel + 1, a :: l => (a :: l.take (bs - 1)) :: splitWindowsAux bs fuel (l.drop (bs - 1))

def splitWindows (bs : ℕ) (l : List α) : List (List α) :=
  splitWindowsAux bs l.length l

/-- The whole dispatch run, app.py lines 244-384: the outcome ledger, one
entry appended per counter increment (`sent_rows += 1` or
`failed_rows += 1`), in append order.  `openErr b` is the connection-level
error raised while opening the session of window `b`, if any. -/
def do_send (cfg : Config) (openErr : ℕ → Option String)
    (rs : List (Recipient × RecipientEnv)) : List (String × Outcome) :=
  (((splitWindows cfg.batch_size rs).enum).map
    (fun bw => processWindow cfg (openErr bw.1) bw.2)).flatten

/-- Entry predicate for the `sent_rows` counter. -/
def isSentEntry (x : String × Outcome) : Bool :=
  match x.2 with
  | Outcome.sent => true
  | _ => false

/-- `sent_rows` at the end of the run (app.py lines 327, 350). -/
def sentCount (l : List (String × Outcome)) : ℕ :=
  l.countP isSentEntry

/-- `failed_rows` at the end of the run (app.py lines 304, 314, 368, 382). -/
def failedCount (l : List (String × Outcome)) : ℕ :=
  l.countP fun x => !isSentEntry x

/-- An exported failure row (`email`, `code`, `error`), app.py lines 305,
315, 369 and 383. -/
structure ErrorRow where
  email : String
  code : Option ℕ
  error : String
  deriving DecidableEq

/-- The failure row an outcome appends to `error_rows`, if any; message
prefixes as in the source (`template_error: `, `batch_error: `). -/
def errorRow : String × Outcome → Option ErrorRow
  | (_, Outcome.sent) => none
  | (_, Outcome.missingEmail) => some ⟨"", none, "missing recipient email"⟩
  | (em, Outcome.templateFailure m) => some ⟨em, none, "template_error: " ++ m⟩
  | (em, Outcome.sendFailure _ c m) => some ⟨em, c, m⟩
  | (em, Outcome.batchFailure m) => some ⟨em, none, "batch_error: " ++ m⟩

/-- `error_rows` at the end of the run, in append order. -/
def errorRows (l : List (String × Outcome)) : List ErrorRow :=
  l.filterMap errorRow

/-- The ledger entry a recipient contributes under the given session-open
result, when no connection-level error escapes mid-window: the batch handler
records the raw e-mail cell, the per-recipient paths record the stripped
`to_addr`. -/
def recipLedgerEntry (cfg : Config) (openRes : Option String)
    (re : Recipient × RecipientEnv) : String × Outcome :=
  match openRes with
  | some m => (re.1.email, Outcome.batchFailure m)
  | none =>
    (pyStrip re.1.email,
      match processRecipient cfg re.1 re.2 with
      | StepResult.done o => o
      | StepResult.fatal m => Outcome.batchFailure m)

/-- app.py line 255: `delay = 60.0 / max(1, rate_per_min)`. -/
def minInterval (rate_per_min : ℕ) : ℚ :=
  60 / (max 1 rate_per_min : ℕ)

/-- app.py lines 320-323: the time slept before a send, on an abstract
clock — `elapsed = now - last_sent; if elapsed < delay: sleep(delay - elapsed)`.
At session start `last_sent = 0.0` (line 297); `last_sent` is updated to the
current time only after a successful `mailer.send` (line 349). -/
def rateWait (delay now last_sent : ℚ) : ℚ :=
  let elapsed := now - last_sent
  if elapsed < delay then delay - elapsed else 0

/-- Python dict assignment `d[k] = v` on an insertion-ordered association
list: update in place if the key exists, else append. -/
def setHeader (d : List (String × String)) (k v : String) :
    List (String × String) :=
  if d.any fun p => p.1 == k then
    d.map fun p => if p.1 == k then (k, v) else p
  else d ++ [(k, v)]

/-- Python `k in d`. -/
def hasKey (d : List (String × String)) (k : String) : Bool :=
  d.any fun p => p.1 == k

/-- app.py lines 258-263: the static header dict built from the `Reply-To`
and `List-Unsubscribe` inputs (Python string truthiness = non-empty). -/
def headers_static (reply_to list_unsub : String) : List (String × String) :=
  let h : List (String × String) := []
  let h := if reply_to = "" then h else setHeader h "Reply-To" reply_to
  if list_unsub = "" then h
  else
    setHeader (setHeader h "List-Unsubscribe" list_unsub)
      "List-Unsubscribe-Post" "List-Unsubscribe=One-Click"

/-- app.py lines 335-339: the per-recipient copy of the static headers, with
the per-row unsubscribe URL added when the cell is present (and not NaN) and
no `List-Unsubscribe` key exists yet. -/
def perRowHeaders (hs : List (String × String)) (unsubscribe_url : Option String) :
    List (String × String) :=
  match unsubscribe_url with
  | none => hs
  | some u =>
    if hasKey hs "List-Unsubscribe" then hs
    else
      setHeader (setHeader hs "List-Unsubscribe" (pyStrip u))
        "List-Unsubscribe-Post" "List-Unsubscribe=One-Click"

/-- app.py lines 86-88 (`SMTPSession.send`): only header entries with a
truthy (non-empty) value are added to the outgoing message. -/
def sendHeaders (headers : List (String × String)) : List (String × String) :=
  headers.filter fun p => !(p.2 == "")

theorem one_le_backoffPre (a : ℕ) : 1 ≤ backoffPre a := by
  unfold backoffPre
  apply le_min (by norm_num)
  exact one_le_pow₀ (by norm_num)

theorem backoffPre_le_cap (a : ℕ) : backoffPre a ≤ 60 :=
  min_le_left _ _

/-- Claim C5: for every attempt ≥ 1 the pre-jitter wait is
`min(60.0, 1.5^(attempt-1))`, the pre-jitter sequence is non-decreasing in the
attempt number and bounded by the 60.0 cap, and the post-jitter value is
floored at 0. -/
theorem c5_backoff_pre_jitter :
    (∀ a : ℕ, 1 ≤ a → backoffPre a = min (60 : ℚ) ((3 / 2 : ℚ) ^ (a - 1))) ∧
    (∀ a b : ℕ, 1 ≤ a → a ≤ b → backoffPre a ≤ backoffPre b) ∧
    (∀ a : ℕ, backoffPre a ≤ 60) ∧
    (∀ (a : ℕ) (s : Bool), 0 ≤ backoff a s) := by
  refine ⟨fun a _ => rfl, fun a b _ hab => ?_, backoffPre_le_cap, fun a s => le_max_left _ _⟩
  exact min_le_min le_rfl
    (pow_le_pow_right₀ (by norm_num) (Nat.sub_le_sub_right hab 1))

/-- Witness for C5 at concrete attempts 2 and 3. -/
theorem c5_backoff_pre_jitter_witness :
    backoffPre 2 = min (60 : ℚ) ((3 / 2 : ℚ) ^ (2 - 1)) ∧
    backoffPre 2 ≤ backoffPre 3 ∧ backoffPre 3 ≤ 60 ∧ 0 ≤ backoff 3 false :=
  ⟨c5_backoff_pre_jitter.1 2 (by decide),
   c5_backoff_pre_jitter.2.1 2 3 (by decide) (by decide),
   c5_backoff_pre_jitter.2.2.1 3,
   c5_backoff_pre_jitter.2.2.2 3 false⟩

/-- Claim C9: for every attempt ≥ 1 and either jitter sign, the returned delay
is exactly `0.8 * w` or `1.2 * w` for `w = min(60.0, 1.5^(attempt-1))`, is
strictly positive (the floor at 0 never binds, since `w ≥ 1`), and never
exceeds 72.0 seconds. -/
theorem c9_backoff_jitter_bounds (a : ℕ) (s : Bool) (_h : 1 ≤ a) :
    (backoff a s = (4 / 5 : ℚ) * backoffPre a ∨
      backoff a s = (6 / 5 : ℚ) * backoffPre a) ∧
    0 < backoff a s ∧ backoff a s ≤ 72 := by
  have hw1 : (1 : ℚ) ≤ backoffPre a := one_le_backoffPre a
  have hwc : backoffPre a ≤ 60 := backoffPre_le_cap a
  cases s with
  | false =>
    have hval : backoff a false = (4 / 5 : ℚ) * backoffPre a := by
      unfold backoff
      rw [if_neg (by simp)]
      rw [max_eq_right (by nlinarith)]
      ring
    refine ⟨Or.inl hval, ?_, ?_⟩
    · rw [hval]; nlinarith
    · rw [hval]; nlinarith
  | true =>
    have hval : backoff a true = (6 / 5 : ℚ) * backoffPre a := by
      unfold backoff
      rw [if_pos rfl]
      rw [max_eq_right (by nlinarith)]
      ring
    refine ⟨Or.inr hval, ?_, ?_⟩
    · rw [hval]; nlinarith
    · rw [hval]; nlinarith

/-- Witness for C9 at attempt 1 with both jitter signs reachable; uses the
positive-jitter sign. -/
theorem c9_backoff_jitter_bounds_witness :
    (backoff 1 true = (4 / 5 : ℚ) * backoffPre 1 ∨
      backoff 1 true = (6 / 5 : ℚ) * backoffPre 1) ∧
    0 < backoff 1 true ∧ backoff 1 true ≤ 72 :=
  c9_backoff_jitter_bounds 1 true (by decide)

/-- Claim C1: the claim (and the spec policy it quotes) say a transiently
always-failing recipient makes exactly `max_retries + 1` attempts, retrying
while the attempt count is below `max_retries + 1`.  The code is off by one:
line 367 stops on `attempts >= int(max_retries)`, so the loop makes
`max(1, max_retries)` attempts.  Evaluating the embedded loop on an oracle
that raises a code-less (transient) error at every attempt: `max_retries`
of 0, 1 and 3 give 1, 1 and 3 total attempts, where the claim predicts
1, 2 and 4 — settings 0 and 1 are indistinguishable, contradicting the
`Max retries per recipient` control (app.py line 133). -/
theorem c1_transient_retry_budget_eval :
    sendLoop (fun _ => AttemptResult.err ⟨none, "timeout"⟩) 0 =
      LoopResult.failed 1 true none "timeout" ∧
    sendLoop (fun _ => AttemptResult.err ⟨none, "timeout"⟩) 1 =
      LoopResult.failed 1 true none "timeout" ∧
    sendLoop (fun _ => AttemptResult.err ⟨none, "timeout"⟩) 3 =
      LoopResult.failed 3 true none "timeout" :=
  ⟨rfl, rfl, rfl⟩

/-- Claim C4: a send failure is classified transient exactly when it carries
no status code or a 4xx code, and permanent otherwise; a permanently failing
recipient is resolved as a permanent failure after exactly 1 attempt, for
every value of `max_retries`. -/
theorem c4_classification_permanent (code : Option ℕ) (cfg : Config)
    (r : Recipient) (env : RecipientEnv) (e : SendError)
    (hmail : ¬ pyStrip r.email = "") (hrender : env.renderOk = true)
    (hdry : cfg.dry_run = false) (henv : env.attempts 1 = AttemptResult.err e)
    (hperm : isTransient e.code = false) :
    (isTransient code = true ↔
      code = none ∨ ∃ c, code = some c ∧ 400 ≤ c ∧ c < 500) ∧
    processRecipient cfg r env =
      StepResult.done (Outcome.sendFailure false e.code e.msg) ∧
    recipAttempts cfg r env = 1 := by
  have hloop : sendLoop env.attempts cfg.max_retries =
      LoopResult.failed 1 false e.code e.msg := by
    unfold sendLoop
    simp only [sendLoopAux, Nat.zero_add, henv]
    rw [if_pos (Or.inl hperm), hperm]
  refine ⟨?_, ?_, ?_⟩
  · cases code with
    | none => simp [isTransient]
    | some c => simp [isTransient]
  · simp [processRecipient, hmail, hrender, hdry, hloop]
  · simp [recipAttempts, hmail, hrender, hdry, hloop, attemptsOf]

/-- Witness for C4: a 550-class error on the first attempt with
`max_retries = 3`; the classification conjunct instantiated at code 404. -/
theorem c4_classification_permanent_witness :
    (isTransient (some 404) = true ↔
      (some 404 : Option ℕ) = none ∨
        ∃ c, (some 404 : Option ℕ) = some c ∧ 400 ≤ c ∧ c < 500) ∧
    processRecipient ⟨3, false, 1⟩ ⟨"p@x.com", none⟩
        ⟨true, "", fun _ => AttemptResult.err ⟨some 550, "blocked"⟩⟩ =
      StepResult.done (Outcome.sendFailure false (some 550) "blocked") ∧
    recipAttempts ⟨3, false, 1⟩ ⟨"p@x.com", none⟩
        ⟨true, "", fun _ => AttemptResult.err ⟨some 550, "blocked"⟩⟩ = 1 :=
  c4_classification_permanent (some 404) ⟨3, false, 1⟩ ⟨"p@x.com", none⟩
    ⟨true, "", fun _ => AttemptResult.err ⟨some 550, "blocked"⟩⟩
    ⟨some 550, "blocked"⟩ (by decide) rfl rfl rfl (by decide)

/-- Claim C7: a recipient whose e-mail field is empty is resolved as a
failure with reason `missing recipient email`, without any send attempt, and
the window continues with the remaining recipients on the same session. -/
theorem c7_missing_email (cfg : Config) (r : Recipient) (env : RecipientEnv)
    (rest : List (Recipient × RecipientEnv)) (h : r.email = "") :
    processRecipient cfg r env = StepResult.done Outcome.missingEmail ∧
    recipAttempts cfg r env = 0 ∧
    errorRow (pyStrip r.email, Outcome.missingEmail) =
      some ⟨"", none, "missing recipient email"⟩ ∧
    runRecips cfg ((r, env) :: rest) =
      (("", Outcome.missingEmail) :: (runRecips cfg rest).1,
        (runRecips cfg rest).2) := by
  have hs : pyStrip r.email = "" := by rw [h]; rfl
  have hp : processRecipient cfg r env = StepResult.done Outcome.missingEmail := by
    simp [processRecipient, hs]
  refine ⟨hp, by simp [recipAttempts, hs], rfl, ?_⟩
  simp [runRecips, hp, hs]

/-- Witness for C7: one empty-address recipient followed by one valid dry-run
recipient; the window resolves both in order. -/
theorem c7_missing_email_witness :
    processRecipient ⟨0, true, 1⟩ ⟨"", none⟩ ⟨true, "", fun _ => AttemptResult.ok⟩ =
      StepResult.done Outcome.missingEmail ∧
    recipAttempts ⟨0, true, 1⟩ ⟨"", none⟩ ⟨true, "", fun _ => AttemptResult.ok⟩ = 0 ∧
    errorRow (pyStrip "", Outcome.missingEmail) =
      some ⟨"", none, "missing recipient email"⟩ ∧
    runRecips ⟨0, true, 1⟩
        [(⟨"", none⟩, ⟨true, "", fun _ => AttemptResult.ok⟩),
         (⟨"n@x.com", none⟩, ⟨true, "", fun _ => AttemptResult.ok⟩)] =
      (("", Outcome.missingEmail) ::
        (runRecips ⟨0, true, 1⟩
          [(⟨"n@x.com", none⟩, ⟨true, "", fun _ => AttemptResult.ok⟩)]).1,
        (runRecips ⟨0, true, 1⟩
          [(⟨"n@x.com", none⟩, ⟨true, "", fun _ => AttemptResult.ok⟩)]).2) :=
  c7_missing_email ⟨0, true, 1⟩ ⟨"", none⟩ ⟨true, "", fun _ => AttemptResult.ok⟩
    [(⟨"n@x.com", none⟩, ⟨true, "", fun _ => AttemptResult.ok⟩)] rfl

/-- Claim C8: the pacing interval is `60 / rate_per_min` seconds (for the
configurations the UI admits, `rate_per_min ≥ 1`); after the pacing wait at
least that interval has elapsed since the previous successful send of the
session; the baseline `last_sent = 0.0` set at session start makes the first
send of a batch wait 0 (on any clock with `delay ≤ now`, which holds for a
wall clock measured since the epoch). -/
theorem c8_rate_limiter (rate : ℕ) (delay now last_sent : ℚ)
    (hr : 1 ≤ rate) (hnow : delay ≤ now) :
    minInterval rate = 60 / (rate : ℚ) ∧
    delay ≤ (now + rateWait delay now last_sent) - last_sent ∧
    rateWait delay now 0 = 0 := by
  refine ⟨?_, ?_, ?_⟩
  · unfold minInterval
    rw [Nat.max_eq_right hr]
  · by_cases hc : now - last_sent < delay
    · simp only [rateWait, if_pos hc]; linarith
    · simp only [rateWait, if_neg hc]; linarith
  · simp only [rateWait]
    rw [if_neg (by simpa using not_lt.mpr hnow)]

/-- Witness for C8: 60 messages per minute, clock at 100 seconds, previous
send at 99.5 seconds: the limiter enforces the full 1-second spacing. -/
theorem c8_rate_limiter_witness :
    minInterval 60 = 60 / (60 : ℚ) ∧
    (1 : ℚ) ≤ (100 + rateWait 1 100 (199 / 2)) - 199 / 2 ∧
    rateWait 1 100 0 = 0 :=
  c8_rate_limiter 60 1 100 (199 / 2) (by decide) (by norm_num)

/-- Claim C10: `SMTPSession.send` adds exactly the header entries with a
non-empty value; a recipient with a present-but-empty `unsubscribe_url` and
no static `List-Unsubscribe` yields a message carrying
`List-Unsubscribe-Post: List-Unsubscribe=One-Click` and no `List-Unsubscribe`
header, whatever the `Reply-To` input. -/
theorem c10_unsubscribe_headers :
    (∀ (hs : List (String × String)) (p : String × String),
      p ∈ sendHeaders hs ↔ p ∈ hs ∧ p.2 ≠ "") ∧
    ∀ reply_to : String,
      ("List-Unsubscribe-Post", "List-Unsubscribe=One-Click") ∈
        sendHeaders (perRowHeaders (headers_static reply_to "") (some "")) ∧
      ∀ v, ("List-Unsubscribe", v) ∉
        sendHeaders (perRowHeaders (headers_static reply_to "") (some "")) := by
  constructor
  · intro hs p
    simp [sendHeaders, List.mem_filter]
  · intro rt
    by_cases hrt : rt = ""
    · subst hrt
      have hev : sendHeaders (perRowHeaders (headers_static "" "") (some "")) =
          [("List-Unsubscribe-Post", "List-Unsubscribe=One-Click")] := rfl
      rw [hev]
      refine ⟨by simp, ?_⟩
      intro v hv
      simp only [List.mem_singleton, Prod.mk.injEq] at hv
      exact absurd hv.1 (by decide)
    · have h1 : headers_static rt "" = [("Reply-To", rt)] := by
        simp [headers_static, hrt, setHeader]
      have h2 : perRowHeaders [("Reply-To", rt)] (some "") =
          [("Reply-To", rt), ("List-Unsubscribe", ""),
           ("List-Unsubscribe-Post", "List-Unsubscribe=One-Click")] := by
        simp [perRowHeaders, hasKey, setHeader, pyStrip]
      have h3 : sendHeaders
          [("Reply-To", rt), ("List-Unsubscribe", ""),
           ("List-Unsubscribe-Post", "List-Unsubscribe=One-Click")] =
          [("Reply-To", rt), ("List-Unsubscribe-Post", "List-Unsubscribe=One-Click")] := by
        simp [sendHeaders, hrt]
      rw [h1, h2, h3]
      refine ⟨by simp, ?_⟩
      intro v hv
      simp only [List.mem_cons, List.mem_singleton, Prod.mk.injEq,
        List.not_mem_nil, or_false] at hv
      rcases hv with h | h
      · exact absurd h.1 (by decide)
      · exact absurd h.1 (by decide)

/-- Witness for C10 at a concrete `Reply-To` value and unsubscribe URL. -/
theorem c10_unsubscribe_headers_witness :
    ("List-Unsubscribe-Post", "List-Unsubscribe=One-Click") ∈
      sendHeaders (perRowHeaders (headers_static "rp@x.com" "") (some "")) ∧
    ("List-Unsubscribe", "https://x.com/u") ∉
      sendHeaders (perRowHeaders (headers_static "rp@x.com" "") (some "")) :=
  ⟨(c10_unsubscribe_headers.2 "rp@x.com").1,
   (c10_unsubscribe_headers.2 "rp@x.com").2 "https://x.com/u"⟩

theorem flatten_splitWindowsAux (bs : ℕ) :
    ∀ (fuel : ℕ) (l : List α), l.length ≤ fuel →
      (splitWindowsAux bs fuel l).flatten = l := by
  intro fuel
  induction fuel with
  | zero =>
    intro l h
    cases l with
    | nil => rfl
    | cons a t => simp at h
  | succ n ih =>
    intro l h
    cases l with
    | nil => rfl
    | cons a t =>
      simp only [splitWindowsAux, List.flatten_cons]
      rw [ih (t.drop (bs - 1)) (by simp at h ⊢; omega)]
      simp [List.take_append_drop]

/-- Windows partition the recipient list without loss, duplication or
reordering. -/
theorem flatten_splitWindows (bs : ℕ) (l : List α) :
    (splitWindows bs l).flatten = l :=
  flatten_splitWindowsAux bs l.length l le_rfl

theorem countP_not_complement (p : α → Bool) (l : List α) :
    l.countP p + l.countP (fun a => !p a) = l.length := by
  induction l with
  | nil => rfl
  | cons a t ih =>
    rw [List.countP_cons, List.countP_cons]
    cases h : p a <;> simp [h] <;> omega

/-- When no connection-level error escapes a window, its ledger is the
elementwise image of its recipients, in order. -/
theorem runRecips_nofatal (cfg : Config) :
    ∀ w : List (Recipient × RecipientEnv), (runRecips cfg w).2 = none →
      (runRecips cfg w).1 = w.map (recipLedgerEntry cfg none) := by
  intro w
  induction w with
  | nil => intro _; rfl
  | cons re rest ih =>
    intro h
    obtain ⟨r, env⟩ := re
    cases hpr : processRecipient cfg r env with
    | done o =>
      simp only [runRecips, hpr] at h ⊢
      rw [ih h]
      simp [recipLedgerEntry, hpr]
    | fatal m => simp [runRecips, hpr] at h

/-- A window with a successful open and no mid-window connection error maps
each of its recipients, in order, to its individual ledger entry; a window
whose open fails maps each recipient to a batch failure. -/
theorem processWindow_eq_map (cfg : Config) (openRes : Option String)
    (w : List (Recipient × RecipientEnv))
    (h : openRes = none → (runRecips cfg w).2 = none) :
    processWindow cfg openRes w = w.map (recipLedgerEntry cfg openRes) := by
  cases openRes with
  | some m => simp [processWindow, recipLedgerEntry]
  | none =>
    have h2 := h rfl
    simp only [processWindow]
    rw [h2]
    exact runRecips_nofatal cfg w h2

/-- Every entry of every window ledger lands in the run ledger: one window
failing never aborts the processing of the others. -/
theorem mem_do_send_of_mem_window (cfg : Config) (openErr : ℕ → Option String)
    (rs : List (Recipient × RecipientEnv)) (b : ℕ)
    (w : List (Recipient × RecipientEnv)) (x : String × Outcome)
    (hw : (b, w) ∈ (splitWindows cfg.batch_size rs).enum)
    (hx : x ∈ processWindow cfg (openErr b) w) :
    x ∈ do_send cfg openErr rs := by
  unfold do_send
  rw [List.mem_flatten]
  refine ⟨processWindow cfg (openErr b) w, ?_, hx⟩
  exact List.mem_map.mpr ⟨(b, w), hw, rfl⟩

/-- Claim C2, counterexample: with `batch_size = 2`, recipient `a@x.com` is
sent successfully, then the send for `b@x.com` raises a connection-level
error outside the caught tuple.  The batch handler marks the WHOLE window
`range(start_i, end_i)` — `a@x.com`, already resolved as sent, receives a
second outcome — where the claim says only the remaining recipient
(`b@x.com`) does. -/
theorem c2_batch_failure_counterexample :
    do_send ⟨0, false, 2⟩ (fun _ => none)
      [(⟨"a@x.com", none⟩, ⟨true, "", fun _ => AttemptResult.ok⟩),
       (⟨"b@x.com", none⟩, ⟨true, "", fun _ => AttemptResult.fatal "connection lost"⟩)] =
      [("a@x.com", Outcome.sent),
       ("a@x.com", Outcome.batchFailure "connection lost"),
       ("b@x.com", Outcome.batchFailure "connection lost")] ∧
    ("a@x.com", Outcome.batchFailure "connection lost") ∈
      do_send ⟨0, false, 2⟩ (fun _ => none)
        [(⟨"a@x.com", none⟩, ⟨true, "", fun _ => AttemptResult.ok⟩),
         (⟨"b@x.com", none⟩, ⟨true, "", fun _ => AttemptResult.fatal "connection lost"⟩)] ∧
    ("a@x.com", Outcome.sent) ∈
      do_send ⟨0, false, 2⟩ (fun _ => none)
        [(⟨"a@x.com", none⟩, ⟨true, "", fun _ => AttemptResult.ok⟩),
         (⟨"b@x.com", none⟩, ⟨true, "", fun _ => AttemptResult.fatal "connection lost"⟩)] :=
  ⟨rfl, by decide, by decide⟩

/-- Claim C2 amended: when opening the session of a window fails, or a
connection-level error escapes mid-window, EVERY recipient of that window
(including any already resolved in it, which thereby receive a second
outcome) gets a `BatchFailure` carrying the triggering message; the window
is abandoned, and every other window still contributes its ledger, so the
run is not aborted.  When the error happens at open, no recipient of the
window was yet processed and this coincides with the claim. -/
theorem c2_batch_failure_amended (cfg : Config) (openErr : ℕ → Option String)
    (rs : List (Recipient × RecipientEnv)) (b : ℕ)
    (w : List (Recipient × RecipientEnv)) (m : String)
    (hw : (b, w) ∈ (splitWindows cfg.batch_size rs).enum)
    (hfail : openErr b = some m ∨
      (openErr b = none ∧ (runRecips cfg w).2 = some m)) :
    (∀ re ∈ w, (re.1.email, Outcome.batchFailure m) ∈ do_send cfg openErr rs) ∧
    ∀ b' w', (b', w') ∈ (splitWindows cfg.batch_size rs).enum →
      ∀ x ∈ processWindow cfg (openErr b') w', x ∈ do_send cfg openErr rs := by
  constructor
  · intro re hre
    apply mem_do_send_of_mem_window cfg openErr rs b w _ hw
    rcases hfail with hopen | ⟨hopen, hfatal⟩
    · rw [hopen]
      simp only [processWindow]
      exact List.mem_map.mpr ⟨re, hre, rfl⟩
    · rw [hopen]
      have hpw : processWindow cfg none w =
          (runRecips cfg w).1 ++
            w.map fun re => (re.1.email, Outcome.batchFailure m) := by
        simp only [processWindow]
        rw [hfatal]
      rw [hpw]
      exact List.mem_append_right _ (List.mem_map.mpr ⟨re, hre, rfl⟩)
  · intro b' w' hw' x hx
    exact mem_do_send_of_mem_window cfg openErr rs b' w' x hw' hx

/-- Witness for C2 amended: a one-recipient window whose session open
raises; the recipient is marked as a batch failure. -/
theorem c2_batch_failure_amended_witness :
    (∀ re ∈ [((⟨"z@x.com", none⟩ : Recipient),
        (⟨true, "", fun _ => AttemptResult.ok⟩ : RecipientEnv))],
      (re.1.email, Outcome.batchFailure "boom") ∈
        do_send ⟨0, false, 1⟩ (fun _ => some "boom")
          [(⟨"z@x.com", none⟩, ⟨true, "", fun _ => AttemptResult.ok⟩)]) ∧
    ∀ b' w', (b', w') ∈ (splitWindows (1 : ℕ)
        [((⟨"z@x.com", none⟩ : Recipient),
          (⟨true, "", fun _ => AttemptResult.ok⟩ : RecipientEnv))]).enum →
      ∀ x ∈ processWindow ⟨0, false, 1⟩ ((fun _ => some "boom") b') w',
        x ∈ do_send ⟨0, false, 1⟩ (fun _ => some "boom")
          [(⟨"z@x.com", none⟩, ⟨true, "", fun _ => AttemptResult.ok⟩)] :=
  c2_batch_failure_amended ⟨0, false, 1⟩ (fun _ => some "boom")
    [(⟨"z@x.com", none⟩, ⟨true, "", fun _ => AttemptResult.ok⟩)] 0
    [(⟨"z@x.com", none⟩, ⟨true, "", fun _ => AttemptResult.ok⟩)] "boom"
    (List.mem_singleton.mpr rfl) (Or.inl rfl)

/-- Claim C3, counterexample: two recipients, one window; the first is sent,
then a connection-level error escapes.  The ledger gets 3 outcomes for 2
recipients and `sent + failed = 3 ≠ 2`. -/
theorem c3_ledger_counterexample :
    (do_send ⟨3, false, 2⟩ (fun _ => none)
      [(⟨"p@x.com", none⟩, ⟨true, "", fun _ => AttemptResult.ok⟩),
       (⟨"q@x.com", none⟩, ⟨true, "", fun _ => AttemptResult.fatal "pipe broken"⟩)]).length = 3 ∧
    ([(((⟨"p@x.com", none⟩ : Recipient),
        (⟨true, "", fun _ => AttemptResult.ok⟩ : RecipientEnv))),
      ((⟨"q@x.com", none⟩ : Recipient),
        (⟨true, "", fun _ => AttemptResult.fatal "pipe broken"⟩ : RecipientEnv))]).length = 2 ∧
    sentCount (do_send ⟨3, false, 2⟩ (fun _ => none)
      [(⟨"p@x.com", none⟩, ⟨true, "", fun _ => AttemptResult.ok⟩),
       (⟨"q@x.com", none⟩, ⟨true, "", fun _ => AttemptResult.fatal "pipe broken"⟩)]) +
    failedCount (do_send ⟨3, false, 2⟩ (fun _ => none)
      [(⟨"p@x.com", none⟩, ⟨true, "", fun _ => AttemptResult.ok⟩),
       (⟨"q@x.com", none⟩, ⟨true, "", fun _ => AttemptResult.fatal "pipe broken"⟩)]) = 3 :=
  ⟨rfl, rfl, rfl⟩

/-- Claim C3 amended: in any run in which no connection-level error escapes
mid-window (batch-level errors occur only while opening a session, before
any recipient of the window is touched), the ledger is exactly the window
structure mapped elementwise over the recipients — one terminal outcome per
input recipient, appended in input order — and the terminal counters satisfy
`sent + failed = number of recipients`. -/
theorem c3_ledger_amended (cfg : Config) (openErr : ℕ → Option String)
    (rs : List (Recipient × RecipientEnv))
    (hnf : ∀ bw ∈ (splitWindows cfg.batch_size rs).enum,
      openErr bw.1 = none → (runRecips cfg bw.2).2 = none) :
    do_send cfg openErr rs =
      ((splitWindows cfg.batch_size rs).enum.map
        (fun bw => bw.2.map (recipLedgerEntry cfg (openErr bw.1)))).flatten ∧
    (do_send cfg openErr rs).length = rs.length ∧
    sentCount (do_send cfg openErr rs) +
      failedCount (do_send cfg openErr rs) = rs.length := by
  have h1 : do_send cfg openErr rs =
      ((splitWindows cfg.batch_size rs).enum.map
        (fun bw => bw.2.map (recipLedgerEntry cfg (openErr bw.1)))).flatten := by
    unfold do_send
    congr 1
    apply List.map_congr_left
    intro bw hbw
    exact processWindow_eq_map cfg (openErr bw.1) bw.2 (fun ho => hnf bw hbw ho)
  have h2 : (do_send cfg openErr rs).length = rs.length := by
    rw [h1, List.length_flatten, List.map_map]
    have hmap : (splitWindows cfg.batch_size rs).enum.map
        (List.length ∘ fun bw => bw.2.map (recipLedgerEntry cfg (openErr bw.1))) =
        (splitWindows cfg.batch_size rs).enum.map (List.length ∘ Prod.snd) := by
      apply List.map_congr_left
      intro bw _
      simp
    rw [hmap, ← List.map_map, List.enum_map_snd, ← List.length_flatten,
      flatten_splitWindows]
  exact ⟨h1, h2, by rw [← h2]; exact countP_not_complement _ _⟩

/-- Witness for C3 amended: a one-recipient dry run with a successful open;
the ledger has exactly one outcome and `sent + failed = 1`. -/
theorem c3_ledger_amended_witness :
    do_send ⟨0, true, 1⟩ (fun _ => none)
      [(⟨"w@x.com", none⟩, ⟨true, "", fun _ => AttemptResult.ok⟩)] =
      ((splitWindows (1 : ℕ)
        [((⟨"w@x.com", none⟩ : Recipient),
          (⟨true, "", fun _ => AttemptResult.ok⟩ : RecipientEnv))]).enum.map
        (fun bw => bw.2.map
          (recipLedgerEntry ⟨0, true, 1⟩ ((fun _ => none) bw.1)))).flatten ∧
    (do_send ⟨0, true, 1⟩ (fun _ => none)
      [(⟨"w@x.com", none⟩, ⟨true, "", fun _ => AttemptResult.ok⟩)]).length =
      ([(((⟨"w@x.com", none⟩ : Recipient),
        (⟨true, "", fun _ => AttemptResult.ok⟩ : RecipientEnv)))]).length ∧
    sentCount (do_send ⟨0, true, 1⟩ (fun _ => none)
      [(⟨"w@x.com", none⟩, ⟨true, "", fun _ => AttemptResult.ok⟩)]) +
    failedCount (do_send ⟨0, true, 1⟩ (fun _ => none)
      [(⟨"w@x.com", none⟩, ⟨true, "", fun _ => AttemptResult.ok⟩)]) =
      ([(((⟨"w@x.com", none⟩ : Recipient),
        (⟨true, "", fun _ => AttemptResult.ok⟩ : RecipientEnv)))]).length :=
  c3_ledger_amended ⟨0, true, 1⟩ (fun _ => none)
    [(⟨"w@x.com", none⟩, ⟨true, "", fun _ => AttemptResult.ok⟩)]
    (by
      intro bw hbw _
      have he : (splitWindows (1 : ℕ)
          [((⟨"w@x.com", none⟩ : Recipient),
            (⟨true, "", fun _ => AttemptResult.ok⟩ : RecipientEnv))]).enum =
          [(0, [(⟨"w@x.com", none⟩, ⟨true, "", fun _ => AttemptResult.ok⟩)])] := rfl
      rw [he] at hbw
      rw [List.mem_singleton.mp hbw]
      rfl)

/-- Claim C6, counterexample: the claim quantifies over dry runs without
restriction, but the code enters `with SMTPSession(...)` in dry-run mode as
well (app.py line 286), so a failing session open yields a `BatchFailure`
outcome for a valid recipient and a `batch_error` row in the failure log —
not a `Sent` outcome, and not a missing-email or template failure. -/
theorem c6_dry_run_counterexample :
    do_send ⟨0, true, 1⟩ (fun _ => some "connection refused")
      [(⟨"a@x.com", none⟩, ⟨true, "", fun _ => AttemptResult.ok⟩)] =
      [("a@x.com", Outcome.batchFailure "connection refused")] ∧
    sentCount (do_send ⟨0, true, 1⟩ (fun _ => some "connection refused")
      [(⟨"a@x.com", none⟩, ⟨true, "", fun _ => AttemptResult.ok⟩)]) = 0 ∧
    errorRows (do_send ⟨0, true, 1⟩ (fun _ => some "connection refused")
      [(⟨"a@x.com", none⟩, ⟨true, "", fun _ => AttemptResult.ok⟩)]) =
      [⟨"a@x.com", none, "batch_error: connection refused"⟩] :=
  ⟨rfl, rfl, rfl⟩

/-- Claim C6 amended: in dry-run mode no `mailer.send` call is made (the
recipient outcome never consults the send oracle and zero send attempts are
counted); every recipient of a window whose session open succeeds is
resolved without a batch failure — valid ones as `Sent`, the others as
missing-email or template failures only; and on the concrete three-recipient
input with all opens succeeding, the run ends `sent = 2`, `failed = 1` with
a failure log of exactly the one missing-email record. -/
theorem c6_dry_run_amended (cfg : Config) (hdry : cfg.dry_run = true) :
    (∀ (r : Recipient) (renv : RecipientEnv) (f : ℕ → AttemptResult),
      processRecipient cfg r ⟨renv.renderOk, renv.renderErrMsg, f⟩ =
        processRecipient cfg r renv ∧
      recipAttempts cfg r renv = 0) ∧
    (∀ (r : Recipient) (renv : RecipientEnv),
      ¬ pyStrip r.email = "" → renv.renderOk = true →
      processRecipient cfg r renv = StepResult.done Outcome.sent) ∧
    (∀ w : List (Recipient × RecipientEnv), (runRecips cfg w).2 = none) ∧
    (∀ w : List (Recipient × RecipientEnv), ∀ x ∈ processWindow cfg none w,
      x.2 = Outcome.sent ∨ x.2 = Outcome.missingEmail ∨
        ∃ m, x.2 = Outcome.templateFailure m) ∧
    (do_send ⟨0, true, 100⟩ (fun _ => none)
      [(⟨"a@x.com", none⟩, ⟨true, "", fun _ => AttemptResult.ok⟩),
       (⟨"", none⟩, ⟨true, "", fun _ => AttemptResult.ok⟩),
       (⟨"c@x.com", none⟩, ⟨true, "", fun _ => AttemptResult.ok⟩)] =
      [("a@x.com", Outcome.sent), ("", Outcome.missingEmail),
       ("c@x.com", Outcome.sent)] ∧
     sentCount (do_send ⟨0, true, 100⟩ (fun _ => none)
      [(⟨"a@x.com", none⟩, ⟨true, "", fun _ => AttemptResult.ok⟩),
       (⟨"", none⟩, ⟨true, "", fun _ => AttemptResult.ok⟩),
       (⟨"c@x.com", none⟩, ⟨true, "", fun _ => AttemptResult.ok⟩)]) = 2 ∧
     failedCount (do_send ⟨0, true, 100⟩ (fun _ => none)
      [(⟨"a@x.com", none⟩, ⟨true, "", fun _ => AttemptResult.ok⟩),
       (⟨"", none⟩, ⟨true, "", fun _ => AttemptResult.ok⟩),
       (⟨"c@x.com", none⟩, ⟨true, "", fun _ => AttemptResult.ok⟩)]) = 1 ∧
     errorRows (do_send ⟨0, true, 100⟩ (fun _ => none)
      [(⟨"a@x.com", none⟩, ⟨true, "", fun _ => AttemptResult.ok⟩),
       (⟨"", none⟩, ⟨true, "", fun _ => AttemptResult.ok⟩),
       (⟨"c@x.com", none⟩, ⟨true, "", fun _ => AttemptResult.ok⟩)]) =
      [⟨"", none, "missing recipient email"⟩]) := by
  have hstep : ∀ (r : Recipient) (renv : RecipientEnv),
      processRecipient cfg r renv = StepResult.done Outcome.sent ∨
      processRecipient cfg r renv = StepResult.done Outcome.missingEmail ∨
      ∃ m, processRecipient cfg r renv =
        StepResult.done (Outcome.templateFailure m) := by
    intro r renv
    by_cases h1 : pyStrip r.email = ""
    · right; left; simp [processRecipient, h1]
    · by_cases h2 : renv.renderOk = false
      · right; right
        exact ⟨renv.renderErrMsg, by simp [processRecipient, h1, h2]⟩
      · left; simp [processRecipient, h1, h2, hdry]
  have hnof : ∀ w : List (Recipient × RecipientEnv),
      (runRecips cfg w).2 = none := by
    intro w
    induction w with
    | nil => rfl
    | cons re rest ih =>
      obtain ⟨r, renv⟩ := re
      rcases hstep r renv with h | h | ⟨m, h⟩ <;> simp [runRecips, h, ih]
  refine ⟨?_, ?_, hnof, ?_, rfl, rfl, rfl, rfl⟩
  · intro r renv f
    constructor
    · by_cases h1 : pyStrip r.email = ""
      · simp [processRecipient, h1]
      · by_cases h2 : renv.renderOk = false
        · simp [processRecipient, h1, h2]
        · simp [processRecipient, h1, h2, hdry]
    · by_cases h1 : pyStrip r.email = ""
      · simp [recipAttempts, h1]
      · by_cases h2 : renv.renderOk = false
        · simp [recipAttempts, h1, h2]
        · simp [recipAttempts, h1, h2, hdry]
  · intro r renv h1 h2
    simp [processRecipient, h1, h2, hdry]
  · intro w x hx
    have hpw : processWindow cfg none w = (runRecips cfg w).1 := by
      simp only [processWindow]
      rw [hnof w]
    rw [hpw] at hx
    clear hpw
    induction w with
    | nil => simp [runRecips] at hx
    | cons re rest ih =>
      obtain ⟨r, renv⟩ := re
      rcases hstep r renv with h | h | ⟨m, h⟩ <;>
        · simp only [runRecips, h] at hx
          rcases List.mem_cons.mp hx with hhead | htail
          · subst hhead; simp
          · exact ih htail

/-- Witness for C6 amended, at a concrete dry-run configuration. -/
theorem c6_dry_run_amended_witness :
    (∀ (r : Recipient) (renv : RecipientEnv) (f : ℕ → AttemptResult),
      processRecipient ⟨0, true, 100⟩ r ⟨renv.renderOk, renv.renderErrMsg, f⟩ =
        processRecipient ⟨0, true, 100⟩ r renv ∧
      recipAttempts ⟨0, true, 100⟩ r renv = 0) ∧
    (∀ (r : Recipient) (renv : RecipientEnv),
      ¬ pyStrip r.email = "" → renv.renderOk = true →
      processRecipient ⟨0, true, 100⟩ r renv = StepResult.done Outcome.sent) ∧
    (∀ w : List (Recipient × RecipientEnv),
      (runRecips ⟨0, true, 100⟩ w).2 = none) ∧
    (∀ w : List (Recipient × RecipientEnv),
      ∀ x ∈ processWindow ⟨0, true, 100⟩ none w,
      x.2 = Outcome.sent ∨ x.2 = Outcome.missingEmail ∨
        ∃ m, x.2 = Outcome.templateFailure m) ∧
    (do_send ⟨0, true, 100⟩ (fun _ => none)
      [(⟨"a@x.com", none⟩, ⟨true, "", fun _ => AttemptResult.ok⟩),
       (⟨"", none⟩, ⟨true, "", fun _ => AttemptResult.ok⟩),
       (⟨"c@x.com", none⟩, ⟨true, "", fun _ => AttemptResult.ok⟩)] =
      [("a@x.com", Outcome.sent), ("", Outcome.missingEmail),
       ("c@x.com", Outcome.sent)] ∧
     sentCount (do_send ⟨0, true, 100⟩ (fun _ => none)
      [(⟨"a@x.com", none⟩, ⟨true, "", fun _ => AttemptResult.ok⟩),
       (⟨"", none⟩, ⟨true, "", fun _ => AttemptResult.ok⟩),
       (⟨"c@x.com", none⟩, ⟨true, "", fun _ => AttemptResult.ok⟩)]) = 2 ∧
     failedCount (do_send ⟨0, true, 100⟩ (fun _ => none)
      [(⟨"a@x.com", none⟩, ⟨true, "", fun _ => AttemptResult.ok⟩),
       (⟨"", none⟩, ⟨true, "", fun _ => AttemptResult.ok⟩),
       (⟨"c@x.com", none⟩, ⟨true, "", fun _ => AttemptResult.ok⟩)]) = 1 ∧
     errorRows (do_send ⟨0, true, 100⟩ (fun _ => none)
      [(⟨"a@x.com", none⟩, ⟨true, "", fun _ => AttemptResult.ok⟩),
       (⟨"", none⟩, ⟨true, "", fun _ => AttemptResult.ok⟩),
       (⟨"c@x.com", none⟩, ⟨true, "", fun _ => AttemptResult.ok⟩)]) =
      [⟨"", none, "missing recipient email"⟩]) :=
  c6_dry_run_amended ⟨0, true, 100⟩ rfl

end BulkMailer
